import Mathlib

/-!
# Retell to Textable SMS middleware (src/app.js)

A shallow embedding of the single source file of the relay: the raw-body
middleware, the account table built from the environment, the HMAC check
verifyRetellSignature and the handler of POST /retell-function, followed by
the properties of the specification that were checked against it.

Conventions of the embedding.

* A byte is a number below 256, a buffer is a list of bytes.
* A JavaScript value is a JsVal; a number is kept as its IEEE-754 binary64
  bit pattern, because the handler only tests numbers for truthiness and
  turns them into property keys.
* A thrown exception is the error side of Except; the try/catch of the
  handler turns it into the 500 response of the catch clause.
* Library functions of the runtime that the source only calls (JSON.parse,
  the UTF-8 decoding of a buffer, Number to string) are fields of Runtime and
  every theorem holds for all of them.  HMAC-SHA256 itself is written out
  (FIPS 180-4, RFC 2104) so that signatures of concrete requests can be
  computed, and so is JSON.stringify, which makes the body of the outbound
  request.
* The network is the function the handler is given for fetch; the list of
  requests handed to it is part of the outcome, console output is not.
* Resource limits (memory, the stack depth of JSON.stringify on a deeply
  nested value) are outside the embedding.
-/

namespace Textable

/-- One octet of a buffer. -/
abbrev Byte := Fin 256

/-! ## SHA-256 and HMAC (crypto.createHmac("sha256", key)) -/

namespace Sha256

/-- Rotate a 32-bit word right by n bits. -/
def rotr (n x : Nat) : Nat := ((x >>> n) ||| (x <<< (32 - n))) % 2 ^ 32

/-- The four sigma functions of FIPS 180-4, section 4.1.2. -/
def bigSigma0 (x : Nat) : Nat := rotr 2 x ^^^ rotr 13 x ^^^ rotr 22 x

def bigSigma1 (x : Nat) : Nat := rotr 6 x ^^^ rotr 11 x ^^^ rotr 25 x

def smallSigma0 (x : Nat) : Nat := rotr 7 x ^^^ rotr 18 x ^^^ (x >>> 3)

def smallSigma1 (x : Nat) : Nat := rotr 17 x ^^^ rotr 19 x ^^^ (x >>> 10)

/-- Choose: the bits of y where x is set, the bits of z elsewhere. -/
def ch (x y z : Nat) : Nat := (x &&& y) ^^^ ((x ^^^ 0xffffffff) &&& z)

/-- Majority of the three words, bit by bit. -/
def maj (x y z : Nat) : Nat := (x &&& y) ^^^ (x &&& z) ^^^ (y &&& z)

/-- The sixty-four round constants of FIPS 180-4, section 4.2.2. -/
def roundConstants : List Nat :=
  [0x428a2f98, 0x71374491, 0xb5c0fbcf, 0xe9b5dba5, 0x3956c25b, 0x59f111f1, 0x923f82a4, 0xab1c5ed5,
   0xd807aa98, 0x12835b01, 0x243185be, 0x550c7dc3, 0x72be5d74, 0x80deb1fe, 0x9bdc06a7, 0xc19bf174,
   0xe49b69c1, 0xefbe4786, 0x0fc19dc6, 0x240ca1cc, 0x2de92c6f, 0x4a7484aa, 0x5cb0a9dc, 0x76f988da,
   0x983e5152, 0xa831c66d, 0xb00327c8, 0xbf597fc7, 0xc6e00bf3, 0xd5a79147, 0x06ca6351, 0x14292967,
   0x27b70a85, 0x2e1b2138, 0x4d2c6dfc, 0x53380d13, 0x650a7354, 0x766a0abb, 0x81c2c92e, 0x92722c85,
   0xa2bfe8a1, 0xa81a664b, 0xc24b8b70, 0xc76c51a3, 0xd192e819, 0xd6990624, 0xf40e3585, 0x106aa070,
   0x19a4c116, 0x1e376c08, 0x2748774c, 0x34b0bcb5, 0x391c0cb3, 0x4ed8aa4a, 0x5b9cca4f, 0x682e6ff3,
   0x748f82ee, 0x78a5636f, 0x84c87814, 0x8cc70208, 0x90befffa, 0xa4506ceb, 0xbef9a3f7, 0xc67178f2]

/-- The eight working variables, each a 32-bit word. -/
structure State where
  a : Nat
  b : Nat
  c : Nat
  d : Nat
  e : Nat
  f : Nat
  g : Nat
  h : Nat

/-- The initial hash value of FIPS 180-4, section 5.3.3. -/
def initialState : State :=
  ⟨0x6a09e667, 0xbb67ae85, 0x3c6ef372, 0xa54ff53a, 0x510e527f, 0x9b05688c, 0x1f83d9ab, 0x5be0cd19⟩

/-- One round with constant k and schedule word w. -/
def round (s : State) (k w : Nat) : State :=
  let t1 := s.h + bigSigma1 s.e + ch s.e s.f s.g + k + w
  let t2 := bigSigma0 s.a + maj s.a s.b s.c
  ⟨(t1 + t2) % 2 ^ 32, s.a, s.b, s.c, (s.d + t1) % 2 ^ 32, s.e, s.f, s.g⟩

/-- The schedule word that follows a window of the last sixteen. -/
def nextWord (win : List Nat) : Nat :=
  (smallSigma1 (win.getD 14 0) + win.getD 9 0 + smallSigma0 (win.getD 1 0) + win.getD 0 0) % 2 ^ 32

/-- All rounds of one block: the window starts as the sixteen words of the
block and slides by one word per round. -/
def rounds : List Nat → List Nat → State → State
  | [], _, s => s
  | k :: ks, win, s => rounds ks (win.tail ++ [nextWord win]) (round s k (win.headD 0))

/-- The compression of one block of sixteen words into the state. -/
def compress (s : State) (block : List Nat) : State :=
  let t := rounds roundConstants block s
  ⟨(s.a + t.a) % 2 ^ 32, (s.b + t.b) % 2 ^ 32, (s.c + t.c) % 2 ^ 32, (s.d + t.d) % 2 ^ 32,
   (s.e + t.e) % 2 ^ 32, (s.f + t.f) % 2 ^ 32, (s.g + t.g) % 2 ^ 32, (s.h + t.h) % 2 ^ 32⟩

/-- Big-endian 32-bit words of a byte string whose length is a multiple of four. -/
def toWords : List Byte → List Nat
  | a :: b :: c :: d :: rest =>
      (a.val * 2 ^ 24 + b.val * 2 ^ 16 + c.val * 2 ^ 8 + d.val) :: toWords rest
  | _ => []

/-- The eight big-endian bytes of a 64-bit number. -/
def word64Bytes (n : Nat) : List Byte :=
  [Fin.ofNat (n / 2 ^ 56), Fin.ofNat (n / 2 ^ 48), Fin.ofNat (n / 2 ^ 40), Fin.ofNat (n / 2 ^ 32),
   Fin.ofNat (n / 2 ^ 24), Fin.ofNat (n / 2 ^ 16), Fin.ofNat (n / 2 ^ 8), Fin.ofNat n]

/-- Padding: a one bit, zeros up to 56 modulo 64, the bit length on eight bytes. -/
def pad (msg : List Byte) : List Byte :=
  msg ++ [0x80] ++ List.replicate ((119 - msg.length % 64) % 64) 0 ++ word64Bytes (8 * msg.length)

/-- The compression of n consecutive blocks of sixteen words. -/
def blocks : Nat → List Nat → State → State
  | 0, _, s => s
  | n + 1, ws, s => blocks n (ws.drop 16) (compress s (ws.take 16))

/-- The four big-endian bytes of a 32-bit word. -/
def wordBytes (w : Nat) : List Byte :=
  [Fin.ofNat (w / 2 ^ 24), Fin.ofNat (w / 2 ^ 16), Fin.ofNat (w / 2 ^ 8), Fin.ofNat w]

/-- The thirty-two bytes of the eight words of a state. -/
def stateBytes (s : State) : List Byte :=
  wordBytes s.a ++ wordBytes s.b ++ wordBytes s.c ++ wordBytes s.d ++
  wordBytes s.e ++ wordBytes s.f ++ wordBytes s.g ++ wordBytes s.h

/-- The SHA-256 digest of a byte string, thirty-two bytes. -/
def hash (msg : List Byte) : List Byte :=
  let ws := toWords (pad msg)
  stateBytes (blocks (ws.length / 16) ws initialState)

end Sha256

/-- A byte xored with a constant, for the inner and outer pad. -/
def xorByte (x : Nat) (b : Byte) : Byte := Fin.ofNat (b.val ^^^ x)

/-- HMAC-SHA256 of RFC 2104 with the 64-byte block of SHA-256: what
crypto.createHmac("sha256", key).update(msg).digest() yields. -/
def hmacSha256 (key msg : List Byte) : List Byte :=
  let k0 := if key.length > 64 then Sha256.hash key else key
  let k := k0 ++ List.replicate (64 - k0.length) 0
  Sha256.hash (k.map (xorByte 0x5c) ++ Sha256.hash (k.map (xorByte 0x36) ++ msg))

/-- The UTF-8 bytes of a string: how createHmac reads a string key. -/
def utf8Bytes (s : String) : List Byte :=
  s.toList.flatMap (fun c => (String.utf8EncodeChar c).map (fun b => b.val))

/-! ## Hex encoding and decoding of buffers -/

/-- The lowercase hex digit of a number below sixteen. -/
def hexDigit (n : Nat) : Char := Char.ofNat (if n < 10 then 48 + n else 87 + n)

/-- The hex digits of a buffer, two per byte, high nibble first. -/
def hexChars (bs : List Byte) : List Char :=
  bs.flatMap (fun b => [hexDigit (b.val / 16), hexDigit (b.val % 16)])

/-- Buffer to string, as digest("hex") does: two lowercase digits per byte. -/
def hexEncode (bs : List Byte) : String := String.mk (hexChars bs)

/-- The UTF-16 code units of a string, which is what a JavaScript string is. -/
def utf16Units (s : List Char) : List Nat :=
  s.flatMap (fun c =>
    if c.toNat < 0x10000 then [c.toNat]
    else [0xD800 + (c.toNat - 0x10000) / 0x400, 0xDC00 + (c.toNat - 0x10000) % 0x400])

/-- The value of a hex digit; the decoder of Node looks a code unit up by its
low eight bits (unhex takes a uint8_t), and a header value never holds a
code unit above 255. -/
def unhex (u : Nat) : Option Nat :=
  let x := u % 256
  if 48 ≤ x ∧ x ≤ 57 then some (x - 48)
  else if 65 ≤ x ∧ x ≤ 70 then some (x - 55)
  else if 97 ≤ x ∧ x ≤ 102 then some (x - 87)
  else none

/-- The hex decoder behind Buffer.from(s, "hex"): it reads pairs of digits
from the left and stops, without an exception, at the first pair that is not
two hex digits; a last unpaired character is ignored. -/
def hexDecodeUnits : List Nat → List Byte
  | a :: b :: rest =>
      match unhex a, unhex b with
      | some hi, some lo => Fin.ofNat (hi * 16 + lo) :: hexDecodeUnits rest
      | _, _ => []
  | _ => []

/-- Buffer.from(s, "hex"). -/
def bufferFromHex (s : String) : List Byte := hexDecodeUnits (utf16Units s.toList)

/-! ## String.prototype.trim -/

/-- WhiteSpace and LineTerminator of ECMAScript, the characters trim removes. -/
def isJsWhiteSpace (c : Char) : Bool :=
  let n := c.toNat
  n == 0x09 || n == 0x0A || n == 0x0B || n == 0x0C || n == 0x0D || n == 0x20 || n == 0xA0 ||
  n == 0x1680 || (0x2000 ≤ n && n ≤ 0x200A) || n == 0x2028 || n == 0x2029 || n == 0x202F ||
  n == 0x205F || n == 0x3000 || n == 0xFEFF

/-- The characters left when the white space at both ends is dropped. -/
def trimChars (l : List Char) : List Char :=
  ((l.dropWhile isJsWhiteSpace).reverse.dropWhile isJsWhiteSpace).reverse

/-- The method trim of a string. -/
def jsTrim (s : String) : String := String.mk (trimChars s.toList)

/-! ## JavaScript values -/

/-- The values the handler meets: what JSON.parse can return, and undefined
for a property that is not there.  A number is its binary64 bit pattern; an
object is the list of its own properties, in which a key is looked up from
the left (JSON.parse leaves one property per key). -/
inductive JsVal where
  | undefined
  | null
  | bool (b : Bool)
  | num (bits : Nat)
  | str (s : String)
  | arr (items : List JsVal)
  | obj (props : List (String × JsVal))

/-- An exception object, of which the handler only reads the message. -/
structure JsError where
  message : String

/-- The library functions of the runtime that the source calls and does not
define.  jsonParse is JSON.parse, none standing for its SyntaxError;
utf8Decode is the method toString("utf8") of a buffer; numberToString is the
conversion of a number, given by its bit pattern, to a string. -/
structure Runtime where
  jsonParse : String → Option JsVal
  utf8Decode : List Byte → String
  numberToString : Nat → String

/-- Positive and negative zero. -/
def numberIsZero (bits : Nat) : Bool := bits % 2 ^ 63 == 0

/-- Not-a-number: all exponent bits set and a fraction that is not zero. -/
def numberIsNaN (bits : Nat) : Bool := (bits / 2 ^ 52) % 2 ^ 11 == 2047 && bits % 2 ^ 52 != 0

/-- ToBoolean: the truthiness that the operators ! and || test. -/
def toBoolean : JsVal → Bool
  | .undefined => false
  | .null => false
  | .bool b => b
  | .num bits => !(numberIsZero bits || numberIsNaN bits)
  | .str s => s != ""
  | .arr _ => true
  | .obj _ => true

/-- The operator || on two values that are already evaluated. -/
def jsOr (a b : JsVal) : JsVal := if toBoolean a then a else b

/-- The values null and undefined, on which a property read throws. -/
def isNullish : JsVal → Bool
  | .undefined => true
  | .null => true
  | _ => false

/-- The value of v.k for a v that is neither null nor undefined and a name k
that no built-in prototype defines, which holds for every name the handler
reads (name, call, args, agent_id, agentId, agent, id, toNumber, to, phone,
messageBody, body, message): an own property of an object, and undefined on
an object without it, on an array and on a primitive. -/
def member (v : JsVal) (k : String) : JsVal :=
  match v with
  | .obj props => (props.lookup k).getD .undefined
  | _ => .undefined

/-- The TypeError of V8 for a property read on null or undefined. -/
def cannotRead (v : JsVal) (k : String) : JsError :=
  ⟨"Cannot read properties of " ++ (match v with | .null => "null" | _ => "undefined") ++
    " (reading \x27" ++ k ++ "\x27)"⟩

/-- The expression v.k: it throws when v is null or undefined. -/
def getProp (v : JsVal) (k : String) : Except JsError JsVal :=
  if isNullish v then .error (cannotRead v k) else .ok (member v k)

/-- The default of a destructuring pattern, as in call = {}: it replaces
undefined and nothing else, so a null stays null. -/
def orDefault (x dflt : JsVal) : JsVal :=
  match x with
  | .undefined => dflt
  | y => y

/-- The comparison v === s with a string literal s. -/
def strictEqualsString (v : JsVal) (s : String) : Bool :=
  match v with
  | .str t => t == s
  | _ => false

/-- The TypeError of V8 for an object that has no primitive value. -/
def noPrimitive : JsError := ⟨"Cannot convert object to primitive value"⟩

mutual
/-- ToString of a value built by JSON.parse.  An array joins its elements,
an object is "[object Object]" unless an own property named toString hides
the method of Object.prototype: then neither toString nor valueOf yields a
primitive and ToPrimitive throws. -/
def toJsString (rt : Runtime) : JsVal → Except JsError String
  | .undefined => .ok "undefined"
  | .null => .ok "null"
  | .bool b => .ok (if b then "true" else "false")
  | .num bits => .ok (rt.numberToString bits)
  | .str s => .ok s
  | .arr items => joinItems rt items
  | .obj props =>
      if props.any (fun p => p.1 == "toString") then .error noPrimitive
      else .ok "[object Object]"
/-- Array.prototype.join with a comma: null and undefined give the empty string. -/
def joinItems (rt : Runtime) : List JsVal → Except JsError String
  | [] => .ok ""
  | x :: rest =>
      (match x with
        | .undefined => Except.ok ""
        | .null => Except.ok ""
        | v => toJsString rt v).bind fun first =>
      match rest with
      | [] => .ok first
      | _ :: _ => (joinItems rt rest).bind fun others => .ok (first ++ "," ++ others)
end

/-- ToPropertyKey, the conversion of the key in accountMap[agentId]. -/
def toPropertyKey (rt : Runtime) (v : JsVal) : Except JsError String := toJsString rt v

/-! ## JSON.stringify -/

/-- A finite number: the exponent bits are not all set.  Infinity, its
negative and NaN are the numbers that are not finite. -/
def numberIsFinite (bits : Nat) : Bool := (bits / 2 ^ 52) % 2 ^ 11 != 2047

/-- The escape of one character inside a JSON string (QuoteJSONString): a
backslash before the quotation mark and the backslash, the short escapes of
backspace, tab, line feed, form feed and carriage return, four hex digits
for the other characters below the space, and the character itself
otherwise. -/
def quoteChar (c : Char) : List Char :=
  let n := c.toNat
  if n = 34 then [Char.ofNat 92, Char.ofNat 34]
  else if n = 92 then [Char.ofNat 92, Char.ofNat 92]
  else if n = 8 then [Char.ofNat 92, Char.ofNat 98]
  else if n = 9 then [Char.ofNat 92, Char.ofNat 116]
  else if n = 10 then [Char.ofNat 92, Char.ofNat 110]
  else if n = 12 then [Char.ofNat 92, Char.ofNat 102]
  else if n = 13 then [Char.ofNat 92, Char.ofNat 114]
  else if n < 32 then
    [Char.ofNat 92, Char.ofNat 117, Char.ofNat 48, Char.ofNat 48, hexDigit (n / 16),
      hexDigit (n % 16)]
  else [c]

/-- A string between quotation marks, as JSON.stringify writes it. -/
def quoteJson (s : String) : String :=
  String.mk ([Char.ofNat 34] ++ s.toList.flatMap quoteChar ++ [Char.ofNat 34])

mutual
/-- JSON.stringify of a value built by JSON.parse, none standing for the
result undefined.  A number that is not finite is written null; no value of
JSON.parse has a callable toJSON.  The properties of an object are written
in the order of the list, which is the order of enumeration. -/
def jsonStringify (rt : Runtime) : JsVal → Option String
  | .undefined => none
  | .null => some "null"
  | .bool b => some (if b then "true" else "false")
  | .num bits => some (if numberIsFinite bits then rt.numberToString bits else "null")
  | .str s => some (quoteJson s)
  | .arr items => some ("[" ++ ",".intercalate (stringifyItems rt items) ++ "]")
  | .obj props => some ("\x7b" ++ ",".intercalate (stringifyProps rt props) ++ "\x7d")
/-- The elements of an array, undefined being written null. -/
def stringifyItems (rt : Runtime) : List JsVal → List String
  | [] => []
  | x :: rest => (jsonStringify rt x).getD "null" :: stringifyItems rt rest
/-- The members of an object, a property whose value is undefined being left out. -/
def stringifyProps (rt : Runtime) : List (String × JsVal) → List String
  | [] => []
  | (k, v) :: rest =>
      match jsonStringify rt v with
      | some text => (quoteJson k ++ ":" ++ text) :: stringifyProps rt rest
      | none => stringifyProps rt rest
end

/-! ## Configuration (lines 27 to 40) -/

/-- The variables of process.env. -/
abbrev Env := String → Option String

/-- The expression process.env.NAME || dflt: an unset and an empty variable
both give the default. -/
def envOr (env : Env) (name dflt : String) : String :=
  match env name with
  | some v => if v = "" then dflt else v
  | none => dflt

/-- The constant RETELL_API_KEY, the HMAC secret. -/
def RETELL_API_KEY (env : Env) : String := envOr env "RETELL_API_KEY" ""

/-- An entry of accountMap. -/
structure Account where
  apiKey : String
  fromNumber : String

/-- The object literal accountMap: two computed keys, the second entry
replacing the first when both keys are the same string. -/
def accountMap (env : Env) : List (String × Account) :=
  let first : String × Account :=
    (envOr env "RETELL_AGENT_1" "retell-agent-123",
      ⟨envOr env "TEXTABLE_API_KEY_1" "", envOr env "TEXTABLE_FROM_1" "+16660001111"⟩)
  let second : String × Account :=
    (envOr env "RETELL_AGENT_2" "retell-agent-456",
      ⟨envOr env "TEXTABLE_API_KEY_2" "", envOr env "TEXTABLE_FROM_2" "+16660002222"⟩)
  if first.1 = second.1 then [second] else [first, second]

/-- The property names every object inherits from Object.prototype. -/
def objectPrototypeKeys : List String :=
  ["constructor", "__defineGetter__", "__defineSetter__", "hasOwnProperty", "__lookupGetter__",
   "__lookupSetter__", "isPrototypeOf", "propertyIsEnumerable", "toString", "valueOf", "__proto__",
   "toLocaleString"]

/-- What accountMap[key] evaluates to: an account of the table, a member of
Object.prototype (a function, or the prototype itself for __proto__), or
undefined. -/
inductive AccountSlot where
  | own (account : Account)
  | inherited
  | absent

/-- The expression accountMap[key]. -/
def lookupAccount (table : List (String × Account)) (key : String) : AccountSlot :=
  match table.lookup key with
  | some account => .own account
  | none => if key ∈ objectPrototypeKeys then .inherited else .absent

/-! ## Signature check (lines 42 to 56) -/

/-- The request as the handler sees it: the header x-retell-signature when
present, and the two fields the middleware has set. -/
structure Request where
  signatureHeader : Option String
  rawBody : List Byte
  body : JsVal

/-- The function crypto.timingSafeEqual on two buffers of the same length. -/
def timingSafeEqual (a b : List Byte) : Bool := a == b

/-- The function verifyRetellSignature, with the constant RETELL_API_KEY it
reads as an argument.  Neither Buffer.from nor, behind the length test,
timingSafeEqual throws, so the catch clause is never entered. -/
def verifyRetellSignature (secret : String) (req : Request) : Bool :=
  let signature := jsTrim (req.signatureHeader.getD "")
  if signature = "" then false
  else
    let expected := hexEncode (hmacSha256 (utf8Bytes secret) req.rawBody)
    let a := bufferFromHex expected
    let b := bufferFromHex signature
    if a.length ≠ b.length then false
    else timingSafeEqual a b

/-! ## Raw body middleware (lines 9 to 25) -/

/-- The middleware: the raw bytes are kept, and the body is their JSON value,
or the empty object when there are no bytes or they do not parse.  As in
line 17, parsing is tried for every body that is not empty, whatever the
content type (the comment of line 16 speaks of application/json only). -/
def rawBodyMiddleware (rt : Runtime) (signatureHeader : Option String) (raw : List Byte) :
    Request :=
  ⟨signatureHeader, raw,
    if raw.length ≠ 0 then (rt.jsonParse (rt.utf8Decode raw)).getD (.obj []) else .obj []⟩

/-! ## The handler of POST /retell-function (lines 58 to 133) -/

/-- What res.status(...).json(...) sends: the status and the value that is
serialised as the body. -/
structure Response where
  status : Nat
  body : JsVal

/-- The arguments of the call of fetch; body is the text that
JSON.stringify makes of the payload, none standing for undefined. -/
structure OutboundRequest where
  url : String
  method : String
  headers : List (String × String)
  body : Option String

/-- What awaiting fetch and then text() comes to: fetch rejects, or a
response arrives with a status and a body text, reading which may fail. -/
inductive FetchResult where
  | rejected (message : String)
  | responded (status : Nat) (text : Except String String)

/-- The state of the handler before line 105: it has answered, or it is
about to call fetch. -/
inductive Checked where
  | reject (response : Response)
  | send (request : OutboundRequest)

/-- What one request comes to: the calls of fetch, in order, and the response. -/
structure Outcome where
  calls : List OutboundRequest
  response : Response

/-- The body of an error response that has no details. -/
def errorJson (msg : String) : JsVal := .obj [("error", .str msg)]

/-- The expression call.agent_id || call.agentId || call.agent?.id. -/
def agentIdOf (call : JsVal) : Except JsError JsVal :=
  (getProp call "agent_id").bind fun a =>
  if toBoolean a then .ok a
  else (getProp call "agentId").bind fun b =>
  if toBoolean b then .ok b
  else (getProp call "agent").bind fun agent =>
  if isNullish agent then .ok .undefined else getProp agent "id"

/-- The expression args.toNumber || args.to || args.phone. -/
def toNumberOf (args : JsVal) : Except JsError JsVal :=
  (getProp args "toNumber").bind fun a =>
  if toBoolean a then .ok a
  else (getProp args "to").bind fun b =>
  if toBoolean b then .ok b
  else getProp args "phone"

/-- The expression args.messageBody || args.body || args.message. -/
def messageBodyOf (args : JsVal) : Except JsError JsVal :=
  (getProp args "messageBody").bind fun a =>
  if toBoolean a then .ok a
  else (getProp args "body").bind fun b =>
  if toBoolean b then .ok b
  else getProp args "message"

/-- The constant textableUrl of line 94. -/
def textableUrl (env : Env) : String :=
  envOr env "TEXTABLE_API_URL" "https://onesms-txb.textable.app/api/messages"

/-- The constant payload of lines 96 to 101. -/
def textablePayload (account : Account) (toNumber messageBody : JsVal) : JsVal :=
  .obj [("toNumber", toNumber), ("fromNumber", .str account.fromNumber),
    ("messageBody", messageBody)]

/-- The call of fetch of lines 105 to 112: the body is JSON.stringify(payload). -/
def textableRequest (rt : Runtime) (env : Env) (account : Account)
    (toNumber messageBody : JsVal) : OutboundRequest :=
  ⟨textableUrl env, "POST",
    [("Content-Type", "application/json"), ("Authorization", "Bearer " ++ account.apiKey)],
    jsonStringify rt (textablePayload account toNumber messageBody)⟩

/-- The object that line 66 destructures, req.body || {}.  It is truthy, so
reading its properties does not throw. -/
def requestBody (req : Request) : JsVal := jsOr req.body (.obj [])

/-- The constant name of line 66. -/
def requestName (req : Request) : JsVal := member (requestBody req) "name"

/-- The constant call of line 66. -/
def requestCall (req : Request) : JsVal := orDefault (member (requestBody req) "call") (.obj [])

/-- The constant args of line 66. -/
def requestArgs (req : Request) : JsVal := orDefault (member (requestBody req) "args") (.obj [])

/-- Lines 61 to 101: the checks, in the order of the source.  An error is an
exception thrown inside the try block. -/
def validateCall (rt : Runtime) (env : Env) (req : Request) : Except JsError Checked :=
  if verifyRetellSignature (RETELL_API_KEY env) req = false then
    .ok (.reject ⟨401, errorJson "Invalid signature"⟩)
  else
    let name := requestName req
    let call := requestCall req
    let args := requestArgs req
    if strictEqualsString name "send_textable_sms" = false then
      .ok (.reject ⟨400, errorJson "Unknown function name"⟩)
    else
      (agentIdOf call).bind fun agentId =>
      if toBoolean agentId = false then
        .ok (.reject ⟨400, errorJson "Missing agent id"⟩)
      else
        (toPropertyKey rt agentId).bind fun key =>
        match lookupAccount (accountMap env) key with
        | .absent =>
            .ok (.reject ⟨400, errorJson "Unknown agent ID or missing Textable credentials"⟩)
        | .inherited =>
            .ok (.reject ⟨400, errorJson "Unknown agent ID or missing Textable credentials"⟩)
        | .own account =>
            if account.apiKey = "" then
              .ok (.reject ⟨400, errorJson "Unknown agent ID or missing Textable credentials"⟩)
            else
              (toNumberOf args).bind fun toNumber =>
              (messageBodyOf args).bind fun messageBody =>
              if toBoolean toNumber = false || toBoolean messageBody = false then
                .ok (.reject ⟨400, errorJson "Missing toNumber or messageBody"⟩)
              else
                .ok (.send (textableRequest rt env account toNumber messageBody))

/-- The response of the catch clause of lines 129 to 132. -/
def serverError (e : JsError) : Response :=
  ⟨500, .obj [("error", .str "Server error"), ("details", .str e.message)]⟩

/-- Lines 105 to 128 once fetch has settled. -/
def relayResponse (rt : Runtime) (result : FetchResult) : Response :=
  match result with
  | .rejected message => serverError ⟨message⟩
  | .responded _ (.error message) => serverError ⟨message⟩
  | .responded status (.ok txtBody) =>
      let txtJson := (rt.jsonParse txtBody).getD (.obj [("raw", .str txtBody)])
      if 200 ≤ status ∧ status ≤ 299 then
        ⟨200, .obj [("success", .bool true), ("textable", txtJson)]⟩
      else
        ⟨500, .obj [("error", .str "Textable API error"), ("details", txtJson)]⟩

/-- The handler registered for POST /retell-function; fetch is the network. -/
def retellFunction (rt : Runtime) (env : Env) (fetch : OutboundRequest → FetchResult)
    (req : Request) : Outcome :=
  match validateCall rt env req with
  | .error e => ⟨[], serverError e⟩
  | .ok (.reject response) => ⟨[], response⟩
  | .ok (.send request) => ⟨[request], relayResponse rt (fetch request)⟩

/-- The endpoint: the middleware, then the handler. -/
def postRetellFunction (rt : Runtime) (env : Env) (fetch : OutboundRequest → FetchResult)
    (signatureHeader : Option String) (raw : List Byte) : Outcome :=
  retellFunction rt env fetch (rawBodyMiddleware rt signatureHeader raw)

/-! ## Worked examples: a configuration, a runtime and signed requests -/

/-- An environment that sets the HMAC secret and the credential of the first
agent, and leaves every other variable to its default. -/
def sampleEnv : Env := fun name =>
  if name = "RETELL_API_KEY" then some "secret"
  else if name = "TEXTABLE_API_KEY_1" then some "key-1"
  else none

/-- The body of a call of send_textable_sms that uses the short aliases. -/
def shortAliasText : String :=
  "\x7b\"name\":\"send_textable_sms\",\"call\":\x7b\"agent_id\":\"retell-agent-123\"\x7d," ++
  "\"args\":\x7b\"to\":\"+1555\",\"message\":\"hi\"\x7d\x7d"

/-- The JSON value of shortAliasText. -/
def shortAliasBody : JsVal :=
  .obj [("name", .str "send_textable_sms"), ("call", .obj [("agent_id", .str "retell-agent-123")]),
    ("args", .obj [("to", .str "+1555"), ("message", .str "hi")])]

/-- The same call with the long names of the two arguments. -/
def longNameText : String :=
  "\x7b\"name\":\"send_textable_sms\",\"call\":\x7b\"agent_id\":\"retell-agent-123\"\x7d," ++
  "\"args\":\x7b\"toNumber\":\"+1555\",\"messageBody\":\"hi\"\x7d\x7d"

/-- The JSON value of longNameText. -/
def longNameBody : JsVal :=
  .obj [("name", .str "send_textable_sms"), ("call", .obj [("agent_id", .str "retell-agent-123")]),
    ("args", .obj [("toNumber", .str "+1555"), ("messageBody", .str "hi")])]

/-- A call whose call context is null. -/
def nullCallText : String := "\x7b\"name\":\"send_textable_sms\",\"call\":null\x7d"

/-- The JSON value of nullCallText. -/
def nullCallBody : JsVal := .obj [("name", .str "send_textable_sms"), ("call", .null)]

/-- A call of a known agent whose args are null. -/
def nullArgsText : String :=
  "\x7b\"name\":\"send_textable_sms\",\"call\":\x7b\"agent_id\":\"retell-agent-123\"\x7d," ++
  "\"args\":null\x7d"

/-- The JSON value of nullArgsText. -/
def nullArgsBody : JsVal :=
  .obj [("name", .str "send_textable_sms"), ("call", .obj [("agent_id", .str "retell-agent-123")]),
    ("args", .null)]

/-- A call of another function. -/
def otherFunctionText : String := "\x7b\"name\":\"lookup_weather\"\x7d"

/-- The JSON value of otherFunctionText. -/
def otherFunctionBody : JsVal := .obj [("name", .str "lookup_weather")]

/-- A call whose agent identifier names a member of Object.prototype. -/
def constructorAgentText : String :=
  "\x7b\"name\":\"send_textable_sms\",\"call\":\x7b\"agent_id\":\"constructor\"\x7d\x7d"

/-- The JSON value of constructorAgentText. -/
def constructorAgentBody : JsVal :=
  .obj [("name", .str "send_textable_sms"), ("call", .obj [("agent_id", .str "constructor")])]

/-- A call that has neither call nor args. -/
def noCallText : String := "\x7b\"name\":\"send_textable_sms\"\x7d"

/-- The JSON value of noCallText. -/
def noCallBody : JsVal := .obj [("name", .str "send_textable_sms")]

/-- A call of a known agent that has no args. -/
def noArgsText : String :=
  "\x7b\"name\":\"send_textable_sms\",\"call\":\x7b\"agent_id\":\"retell-agent-123\"\x7d\x7d"

/-- The JSON value of noArgsText. -/
def noArgsBody : JsVal :=
  .obj [("name", .str "send_textable_sms"), ("call", .obj [("agent_id", .str "retell-agent-123")])]

/-- A call of a known agent whose two arguments are an empty array and an
empty object. -/
def emptyValuesText : String :=
  "\x7b\"name\":\"send_textable_sms\",\"call\":\x7b\"agent_id\":\"retell-agent-123\"\x7d," ++
  "\"args\":\x7b\"toNumber\":[],\"messageBody\":\x7b\x7d\x7d\x7d"

/-- The JSON value of emptyValuesText. -/
def emptyValuesBody : JsVal :=
  .obj [("name", .str "send_textable_sms"), ("call", .obj [("agent_id", .str "retell-agent-123")]),
    ("args", .obj [("toNumber", .arr []), ("messageBody", .obj [])])]

/-- A call of a known agent whose destination is the number 1e999, which
JSON.parse reads as Infinity. -/
def overflowText : String :=
  "\x7b\"name\":\"send_textable_sms\",\"call\":\x7b\"agent_id\":\"retell-agent-123\"\x7d," ++
  "\"args\":\x7b\"toNumber\":1e999,\"messageBody\":\"hi\"\x7d\x7d"

/-- The JSON value of overflowText; 0x7FF0000000000000 is the bit pattern of
Infinity. -/
def overflowBody : JsVal :=
  .obj [("name", .str "send_textable_sms"), ("call", .obj [("agent_id", .str "retell-agent-123")]),
    ("args", .obj [("toNumber", .num 0x7FF0000000000000), ("messageBody", .str "hi")])]

/-- The texts of the examples with their JSON values. -/
def sampleTexts : List (String × JsVal) :=
  [(shortAliasText, shortAliasBody), (longNameText, longNameBody), (nullCallText, nullCallBody),
   (nullArgsText, nullArgsBody), (otherFunctionText, otherFunctionBody),
   (constructorAgentText, constructorAgentBody), (noCallText, noCallBody),
   (noArgsText, noArgsBody), (emptyValuesText, emptyValuesBody), (overflowText, overflowBody),
   ("\x7b\"id\":\"abc\"\x7d", .obj [("id", .str "abc")])]

/-- A runtime for the examples.  Its jsonParse knows the texts of sampleTexts
and reports a syntax error for every other text, which is what JSON.parse
does for the two other texts the examples use, "not json" and "OK"; buffers
of the examples are ASCII and are decoded byte by byte. -/
def sampleRuntime : Runtime :=
  ⟨fun text => sampleTexts.lookup text,
   fun bytes => String.mk (bytes.map fun b => Char.ofNat b.val),
   fun _ => "NaN"⟩

/-- The request that arrives with the given signature header and body text. -/
def sampleRequest (signature text : String) : Request :=
  rawBodyMiddleware sampleRuntime (some signature) (utf8Bytes text)

/-- The short-alias call, signed with the secret of sampleEnv. -/
def shortAliasRequest : Request :=
  sampleRequest "bc1c0c9bb67bc30399d74adcf87ab6c18489d73dbd1103f24c624ffa8120242d" shortAliasText

/-- The long-name call, signed. -/
def longNameRequest : Request :=
  sampleRequest "8b3ac47db733d2b39984a32f8da946c006428169020451fc63ebd61a274cda85" longNameText

/-- The short-alias call under the signature of the long-name call. -/
def wronglySignedRequest : Request :=
  sampleRequest "8b3ac47db733d2b39984a32f8da946c006428169020451fc63ebd61a274cda85" shortAliasText

/-- The call with a null call context, signed. -/
def nullCallRequest : Request :=
  sampleRequest "0b54cd6eba76296074cdbe56c3aa4981f6f82671953c5b8b3b359bdab9d7ef79" nullCallText

/-- The call with null args, signed. -/
def nullArgsRequest : Request :=
  sampleRequest "0dbb258586dab43c95e100eb4321ba8ae01dab17be70be5529115599916547e6" nullArgsText

/-- The call of another function, signed. -/
def otherFunctionRequest : Request :=
  sampleRequest "d18122223c155449fd8579cc3d1012d779ce6a683dbec47396f1d8e04fe55319"
    otherFunctionText

/-- The call of the agent "constructor", signed. -/
def constructorAgentRequest : Request :=
  sampleRequest "fb7f5795757875f1ffb7f9662c69173e64d7b130e09efd0c8a379a7a0d4bed16"
    constructorAgentText

/-- The call without call and args, signed. -/
def noCallRequest : Request :=
  sampleRequest "5407f08e470a2b9defd29f14116c6309e3fef4042c70a67253e6e12fd8a050cf" noCallText

/-- The call of a known agent without args, signed. -/
def noArgsRequest : Request :=
  sampleRequest "99c8ff4b1676afbf8d31f214218c17c6bd677290645c11d8f92e1978a7dc8b65" noArgsText

/-- The call with an empty array and an empty object as arguments, signed. -/
def emptyValuesRequest : Request :=
  sampleRequest "977d02e2c246b13b4a002afafc205b59144da169ab5b231b660dfec4430f3614" emptyValuesText

/-- The call with the destination 1e999, signed. -/
def overflowRequest : Request :=
  sampleRequest "5c90be15aae88f21a60d6c586199fa62030c09c6e90d4edbd930b92e17bc7a3a" overflowText

/-- A provider that answers every request with one status and body text. -/
def providerAnswers (status : Nat) (text : String) : OutboundRequest → FetchResult :=
  fun _ => .responded status (.ok text)

/-- The outbound request of the two example calls of the first agent, with
the body text that goes to the provider. -/
def sampleOutbound : OutboundRequest :=
  ⟨"https://onesms-txb.textable.app/api/messages", "POST",
    [("Content-Type", "application/json"), ("Authorization", "Bearer key-1")],
    some ("\x7b\"toNumber\":\"+1555\",\"fromNumber\":\"+16660001111\"," ++
      "\"messageBody\":\"hi\"\x7d")⟩

/-! ## The alias rule in the words of the specification -/

/-- The three places of the agent identifier, in the order the
specification gives them: the flat field, the camel-case field, the field id
of the nested object agent. -/
def agentIdCandidates (call : JsVal) : List JsVal :=
  [member call "agent_id", member call "agentId",
   if isNullish (member call "agent") then .undefined else member (member call "agent") "id"]

/-- The three aliases of the destination number, in order. -/
def toNumberCandidates (args : JsVal) : List JsVal :=
  [member args "toNumber", member args "to", member args "phone"]

/-- The three aliases of the message text, in order. -/
def messageBodyCandidates (args : JsVal) : List JsVal :=
  [member args "messageBody", member args "body", member args "message"]

/-- A field is string-valued when it is absent or holds a string. -/
def StringValued (v : JsVal) : Prop := v = .undefined ∨ ∃ s, v = .str s

/-- The string a field holds, none for an absent field. -/
def asString : JsVal → Option String
  | .str s => some s
  | _ => none

/-- First non-empty wins: the first candidate that is a non-empty string,
none when there is no such candidate. -/
def firstNonEmpty : List (Option String) → Option String
  | [] => none
  | some s :: rest => if s ≠ "" then some s else firstNonEmpty rest
  | none :: rest => firstNonEmpty rest

/-- A value v that the code extracted agrees with the pick of the rule: it is
the picked string, or it is falsy when the rule picks nothing. -/
def AgreesWith (v : JsVal) (pick : Option String) : Prop :=
  match pick with
  | some s => v = .str s
  | none => toBoolean v = false


set_option maxRecDepth 100000

/-! ## Lemmas on the digest and on hex strings -/

theorem Sha256.hash_length (msg : List Byte) : (Sha256.hash msg).length = 32 := by
  simp [Sha256.hash, Sha256.stateBytes, Sha256.wordBytes]

/-- The digest of "abc" is the one FIPS 180-4 gives as an example. -/
theorem Sha256.hash_abc :
    hexEncode (Sha256.hash (utf8Bytes "abc")) =
      "ba7816bf8f01cfea414140de5dae2223b00361a396177a9cb410ff61f20015ad" := by
  decide

/-- Test case 2 of RFC 4231. -/
theorem hmacSha256_rfc4231 :
    hexEncode (hmacSha256 (utf8Bytes "Jefe") (utf8Bytes "what do ya want for nothing?")) =
      "5bdcc146bf60754e6a042426089575c75a003f089d2739839dec58b964ec3843" := by
  decide

theorem hmacSha256_length (key msg : List Byte) : (hmacSha256 key msg).length = 32 := by
  simp [hmacSha256, Sha256.hash_length]

theorem hexDigit_spec : ∀ n : Fin 16,
    isJsWhiteSpace (hexDigit n.val) = false ∧ (hexDigit n.val).toNat < 0x10000 ∧
      unhex (hexDigit n.val).toNat = some n.val := by
  decide

theorem hexDigit_high (b : Byte) :
    isJsWhiteSpace (hexDigit (b.val / 16)) = false ∧ (hexDigit (b.val / 16)).toNat < 0x10000 ∧
      unhex (hexDigit (b.val / 16)).toNat = some (b.val / 16) :=
  hexDigit_spec ⟨b.val / 16, by omega⟩

theorem hexDigit_low (b : Byte) :
    isJsWhiteSpace (hexDigit (b.val % 16)) = false ∧ (hexDigit (b.val % 16)).toNat < 0x10000 ∧
      unhex (hexDigit (b.val % 16)).toNat = some (b.val % 16) :=
  hexDigit_spec ⟨b.val % 16, by omega⟩

theorem hexChars_cons (b : Byte) (bs : List Byte) :
    hexChars (b :: bs) = hexDigit (b.val / 16) :: hexDigit (b.val % 16) :: hexChars bs := by
  simp [hexChars]

theorem hexChars_not_whiteSpace (bs : List Byte) :
    ∀ c ∈ hexChars bs, isJsWhiteSpace c = false := by
  induction bs with
  | nil => simp [hexChars]
  | cons b bs ih =>
    intro c hc
    rw [hexChars_cons] at hc
    simp only [List.mem_cons] at hc
    rcases hc with h | h | h
    · rw [h]; exact (hexDigit_high b).1
    · rw [h]; exact (hexDigit_low b).1
    · exact ih c h

theorem hexChars_length (bs : List Byte) : (hexChars bs).length = 2 * bs.length := by
  induction bs with
  | nil => simp [hexChars]
  | cons b bs ih => rw [hexChars_cons]; simp [ih]; omega

theorem hexDecodeUnits_hexChars (bs : List Byte) :
    hexDecodeUnits (utf16Units (hexChars bs)) = bs := by
  induction bs with
  | nil => simp [hexChars, utf16Units, hexDecodeUnits]
  | cons b bs ih =>
    obtain ⟨-, h1, h2⟩ := hexDigit_high b
    obtain ⟨-, l1, l2⟩ := hexDigit_low b
    have hu : utf16Units (hexChars (b :: bs)) =
        (hexDigit (b.val / 16)).toNat :: (hexDigit (b.val % 16)).toNat ::
          utf16Units (hexChars bs) := by
      rw [hexChars_cons]
      simp [utf16Units, h1, l1]
    rw [hu, hexDecodeUnits, h2, l2, ih]
    have hb : (Fin.ofNat (b.val / 16 * 16 + b.val % 16) : Byte) = b := by
      apply Fin.ext
      simp [Fin.ofNat]
      omega
    simp [hb]

theorem bufferFromHex_hexEncode (bs : List Byte) : bufferFromHex (hexEncode bs) = bs := by
  simp [bufferFromHex, hexEncode, hexDecodeUnits_hexChars]

/-! ## Lemmas on trim -/

theorem dropWhile_of_none {p : Char → Bool} (l : List Char) (h : ∀ c ∈ l, p c = false) :
    l.dropWhile p = l := by
  cases l with
  | nil => rfl
  | cons a l => simp [List.dropWhile, h a (List.mem_cons_self a l)]

theorem dropWhile_of_all {p : Char → Bool} (l : List Char) (h : ∀ c ∈ l, p c = true) :
    l.dropWhile p = [] := by
  induction l with
  | nil => rfl
  | cons a l ih =>
    simp only [List.dropWhile, h a (List.mem_cons_self a l)]
    exact ih (fun c hc => h c (List.mem_cons_of_mem a hc))

theorem trimChars_of_no_whiteSpace (l : List Char) (h : ∀ c ∈ l, isJsWhiteSpace c = false) :
    trimChars l = l := by
  unfold trimChars
  rw [dropWhile_of_none l h, dropWhile_of_none l.reverse (fun c hc => h c (List.mem_reverse.mp hc))]
  simp

theorem trimChars_of_all_whiteSpace (l : List Char) (h : ∀ c ∈ l, isJsWhiteSpace c = true) :
    trimChars l = [] := by
  unfold trimChars
  rw [dropWhile_of_all l h]
  rfl

theorem jsTrim_hexEncode (bs : List Byte) : jsTrim (hexEncode bs) = hexEncode bs := by
  simp [jsTrim, hexEncode, trimChars_of_no_whiteSpace _ (hexChars_not_whiteSpace bs)]

theorem string_mk_eq_empty (l : List Char) : String.mk l = "" ↔ l = [] := by
  constructor
  · intro h
    have := congrArg String.data h
    simpa using this
  · intro h
    rw [h]

/-- The signature check accepts exactly the headers whose trimmed text is not
empty and hex-decodes to the HMAC of the raw body. -/
theorem verifyRetellSignature_eq_true_iff (secret : String) (req : Request) :
    verifyRetellSignature secret req = true ↔
      ∃ s, req.signatureHeader = some s ∧ jsTrim s ≠ "" ∧
        bufferFromHex (jsTrim s) = hmacSha256 (utf8Bytes secret) req.rawBody := by
  unfold verifyRetellSignature
  simp only [bufferFromHex_hexEncode, timingSafeEqual]
  cases hh : req.signatureHeader with
  | none =>
    have : jsTrim "" = "" := by decide
    simp [this]
  | some s =>
    simp only [Option.getD_some]
    by_cases he : jsTrim s = ""
    · simp [he]
    · simp only [he, if_false]
      by_cases hb : bufferFromHex (jsTrim s) = hmacSha256 (utf8Bytes secret) req.rawBody
      · simp [hb, he]
      · have hne : hmacSha256 (utf8Bytes secret) req.rawBody ≠ bufferFromHex (jsTrim s) :=
          fun h => hb h.symm
        by_cases hl : (hmacSha256 (utf8Bytes secret) req.rawBody).length =
            (bufferFromHex (jsTrim s)).length
        · simp [hl, hb, hne]
        · simp [hl, hb]

/-! ## The signature check (claims C1, C2, C3) -/

/-- C1: for every raw body and every secret, verifyRetellSignature returns
true when the header is the lowercase hex encoding of the HMAC-SHA256 of the
raw body under the secret. -/
theorem verifyRetellSignature_accepts_hmac (secret : String) (rawBody : List Byte) (body : JsVal) :
    verifyRetellSignature secret
      ⟨some (hexEncode (hmacSha256 (utf8Bytes secret) rawBody)), rawBody, body⟩ = true := by
  rw [verifyRetellSignature_eq_true_iff]
  refine ⟨_, rfl, ?_, ?_⟩
  · rw [jsTrim_hexEncode]
    intro h
    have hlen := hexChars_length (hmacSha256 (utf8Bytes secret) rawBody)
    rw [hexEncode, string_mk_eq_empty] at h
    rw [h, hmacSha256_length] at hlen
    simp at hlen
  · rw [jsTrim_hexEncode]
    exact bufferFromHex_hexEncode _

/-- C2, counterexample: with the empty secret and the empty body the HMAC is
b613...c5ad, and the check also accepts that text in upper case, between
blanks, followed by characters that are not hex digits, and followed by one
more digit, none of which is the hex encoding of the HMAC. -/
theorem verifyRetellSignature_accepts_other_headers :
    hexEncode (hmacSha256 (utf8Bytes "") []) =
        "b613679a0814d9ec772f95d778c35fc5ff1697c493715653c6c712144292c5ad" ∧
      verifyRetellSignature ""
        ⟨some "B613679A0814D9EC772F95D778C35FC5FF1697C493715653C6C712144292C5AD", [], .obj []⟩
        = true ∧
      verifyRetellSignature ""
        ⟨some " b613679a0814d9ec772f95d778c35fc5ff1697c493715653c6c712144292c5ad\t", [], .obj []⟩
        = true ∧
      verifyRetellSignature ""
        ⟨some "b613679a0814d9ec772f95d778c35fc5ff1697c493715653c6c712144292c5adzz", [], .obj []⟩
        = true ∧
      verifyRetellSignature ""
        ⟨some "b613679a0814d9ec772f95d778c35fc5ff1697c493715653c6c712144292c5ad0", [], .obj []⟩
        = true := by
  decide

/-- C2, amended: verifyRetellSignature returns false whenever the header is
absent, or is empty once trimmed, or the buffer that the hex decoding of the
trimmed header yields is not the HMAC-SHA256 of the raw body. -/
theorem verifyRetellSignature_rejects (secret : String) (req : Request)
    (h : req.signatureHeader = none ∨
      ∃ s, req.signatureHeader = some s ∧
        (jsTrim s = "" ∨
          bufferFromHex (jsTrim s) ≠ hmacSha256 (utf8Bytes secret) req.rawBody)) :
    verifyRetellSignature secret req = false := by
  cases hv : verifyRetellSignature secret req with
  | false => rfl
  | true =>
    obtain ⟨s, hs, hne, hb⟩ := (verifyRetellSignature_eq_true_iff secret req).mp hv
    rcases h with h | ⟨t, ht, h⟩
    · rw [h] at hs; cases hs
    · rw [ht] at hs
      cases hs
      rcases h with h | h
      · exact absurd h hne
      · exact absurd hb h

/-- C2, witness: a header of sixty-two hex digits, one byte short of a
digest, is rejected. -/
theorem verifyRetellSignature_rejects_witness :
    verifyRetellSignature ""
      ⟨some "b613679a0814d9ec772f95d778c35fc5ff1697c493715653c6c712144292c5", [], .obj []⟩
      = false :=
  verifyRetellSignature_rejects "" _ (Or.inr ⟨_, rfl, Or.inr (by decide)⟩)

/-! ## Lemmas on the handler -/

@[simp] theorem except_bind_ok {ε α β : Type} (a : α) (f : α → Except ε β) :
    (Except.ok a).bind f = f a := rfl

@[simp] theorem except_bind_error {ε α β : Type} (e : ε) (f : α → Except ε β) :
    (Except.error e : Except ε α).bind f = Except.error e := rfl

theorem strictEqualsString_eq_true_iff (v : JsVal) (s : String) :
    strictEqualsString v s = true ↔ v = .str s := by
  cases v <;> simp [strictEqualsString]

theorem strictEqualsString_eq_false_iff (v : JsVal) (s : String) :
    strictEqualsString v s = false ↔ v ≠ .str s := by
  cases v <;> simp [strictEqualsString]

theorem toBoolean_str (s : String) : toBoolean (.str s) = true ↔ s ≠ "" := by
  simp [toBoolean]

theorem toPropertyKey_str (rt : Runtime) (s : String) : toPropertyKey rt (.str s) = .ok s := by
  simp [toPropertyKey, toJsString]

theorem jsTrim_of_all_whiteSpace (s : String) (h : ∀ c ∈ s.toList, isJsWhiteSpace c = true) :
    jsTrim s = "" := by
  rw [jsTrim, string_mk_eq_empty]
  exact trimChars_of_all_whiteSpace _ h

theorem validateCall_of_invalid_signature (rt : Runtime) (env : Env) (req : Request)
    (h : verifyRetellSignature (RETELL_API_KEY env) req = false) :
    validateCall rt env req = .ok (.reject ⟨401, errorJson "Invalid signature"⟩) := by
  simp [validateCall, h]

/-! ## Rejections of the handler (claims C3, C4, C5) -/

/-- C3: when the signature header is absent, is empty or whitespace only, or
decodes to a buffer whose length is not 32 or whose content is not the HMAC
of the raw body, the handler answers 401 with the body error "Invalid
signature", whatever the parsed body is, and calls the provider not at all. -/
theorem retellFunction_invalid_signature (rt : Runtime) (env : Env)
    (fetch : OutboundRequest → FetchResult) (req : Request)
    (h : req.signatureHeader = none ∨
      ∃ s, req.signatureHeader = some s ∧
        ((∀ c ∈ s.toList, isJsWhiteSpace c = true) ∨
          (bufferFromHex (jsTrim s)).length ≠ 32 ∨
          bufferFromHex (jsTrim s) ≠ hmacSha256 (utf8Bytes (RETELL_API_KEY env)) req.rawBody)) :
    retellFunction rt env fetch req =
      ⟨[], ⟨401, .obj [("error", .str "Invalid signature")]⟩⟩ := by
  have hv : verifyRetellSignature (RETELL_API_KEY env) req = false := by
    cases hv : verifyRetellSignature (RETELL_API_KEY env) req with
    | false => rfl
    | true =>
      obtain ⟨s, hs, hne, hb⟩ := (verifyRetellSignature_eq_true_iff _ req).mp hv
      rcases h with h | ⟨t, ht, h⟩
      · rw [h] at hs; cases hs
      · have hts : t = s := by
          rw [ht] at hs
          exact Option.some.inj hs
        rw [hts] at h
        rcases h with h | h | h
        · exact absurd (jsTrim_of_all_whiteSpace s h) hne
        · rw [hb, hmacSha256_length] at h
          exact absurd rfl h
        · exact absurd hb h
  simp [retellFunction, validateCall_of_invalid_signature rt env req hv, errorJson]

/-- C3, witness: the short-alias call arrives with the signature of another
body and is answered 401. -/
theorem retellFunction_invalid_signature_witness :
    retellFunction sampleRuntime sampleEnv (providerAnswers 200 "OK")
        wronglySignedRequest =
      ⟨[], ⟨401, .obj [("error", .str "Invalid signature")]⟩⟩ :=
  retellFunction_invalid_signature _ _ _ _ (Or.inr ⟨_, rfl, Or.inr (Or.inr (by decide))⟩)

/-- C4: a request that passes the signature check and whose name is not the
string send_textable_sms is answered 400 with the body error "Unknown
function name", whatever call and args are, and nothing is sent to the
provider; this holds in particular when the raw body is empty or is not
JSON, the parsed body then being the empty object. -/
theorem retellFunction_unknown_function_name :
    (∀ (rt : Runtime) (env : Env) (fetch : OutboundRequest → FetchResult) (req : Request),
      verifyRetellSignature (RETELL_API_KEY env) req = true →
      requestName req ≠ .str "send_textable_sms" →
      retellFunction rt env fetch req =
        ⟨[], ⟨400, .obj [("error", .str "Unknown function name")]⟩⟩) ∧
    (∀ (rt : Runtime) (env : Env) (fetch : OutboundRequest → FetchResult)
        (header : Option String) (raw : List Byte),
      verifyRetellSignature (RETELL_API_KEY env) (rawBodyMiddleware rt header raw) = true →
      (raw = [] ∨ rt.jsonParse (rt.utf8Decode raw) = none) →
      postRetellFunction rt env fetch header raw =
        ⟨[], ⟨400, .obj [("error", .str "Unknown function name")]⟩⟩) := by
  have main : ∀ (rt : Runtime) (env : Env) (fetch : OutboundRequest → FetchResult)
      (req : Request), verifyRetellSignature (RETELL_API_KEY env) req = true →
      requestName req ≠ .str "send_textable_sms" →
      retellFunction rt env fetch req =
        ⟨[], ⟨400, .obj [("error", .str "Unknown function name")]⟩⟩ := by
    intro rt env fetch req hsig hname
    have hs := (strictEqualsString_eq_false_iff _ _).mpr hname
    simp [retellFunction, validateCall, hsig, hs, errorJson]
  refine ⟨main, ?_⟩
  intro rt env fetch header raw hsig hraw
  apply main rt env fetch _ hsig
  have hbody : (rawBodyMiddleware rt header raw).body = .obj [] := by
    rcases hraw with h | h
    · simp [rawBodyMiddleware, h]
    · simp [rawBodyMiddleware, h]
  simp [requestName, requestBody, hbody, jsOr, toBoolean, member]

/-- C4, witness: a signed call of lookup_weather and a signed body that is
not JSON are both answered 400. -/
theorem retellFunction_unknown_function_name_witness :
    retellFunction sampleRuntime sampleEnv (providerAnswers 200 "OK")
        otherFunctionRequest =
      ⟨[], ⟨400, .obj [("error", .str "Unknown function name")]⟩⟩ ∧
    postRetellFunction sampleRuntime sampleEnv (providerAnswers 200 "OK")
        (some "19e44cefdf4796e0dc616e940e49c2ecd3fc476343e40c7c95d39a75dc10e958")
        (utf8Bytes "not json") =
      ⟨[], ⟨400, .obj [("error", .str "Unknown function name")]⟩⟩ :=
  ⟨retellFunction_unknown_function_name.1 _ _ _ _ (by decide)
      (by
        have h : requestName otherFunctionRequest = .str "lookup_weather" := rfl
        rw [h]
        simp),
    retellFunction_unknown_function_name.2 _ _ _ _ _ (by decide) (Or.inr rfl)⟩

/-- C5: a request that passes the signature check, names send_textable_sms
and carries a non-empty string as agent identifier is answered 400 with the
body error "Unknown agent ID or missing Textable credentials", whatever args
is and without a call of the provider, when the identifier is not a key of
the account table (a name inherited from Object.prototype included) or is
the key of an account whose apiKey is empty. -/
theorem retellFunction_unknown_agent (rt : Runtime) (env : Env)
    (fetch : OutboundRequest → FetchResult) (req : Request) (agentId : String)
    (hsig : verifyRetellSignature (RETELL_API_KEY env) req = true)
    (hname : requestName req = .str "send_textable_sms")
    (hagent : agentIdOf (requestCall req) = .ok (.str agentId))
    (hne : agentId ≠ "")
    (haccount : (accountMap env).lookup agentId = none ∨
      ∃ account, (accountMap env).lookup agentId = some account ∧ account.apiKey = "") :
    retellFunction rt env fetch req =
      ⟨[], ⟨400, .obj [("error", .str "Unknown agent ID or missing Textable credentials")]⟩⟩ := by
  have hs := (strictEqualsString_eq_true_iff _ _).mpr hname
  have ht := (toBoolean_str agentId).mpr hne
  rcases haccount with h | ⟨account, h, hk⟩
  · by_cases hp : agentId ∈ objectPrototypeKeys
    · simp [retellFunction, validateCall, hsig, hs, hagent, ht, toPropertyKey_str, lookupAccount,
        h, hp, errorJson]
    · simp [retellFunction, validateCall, hsig, hs, hagent, ht, toPropertyKey_str, lookupAccount,
        h, hp, errorJson]
  · simp [retellFunction, validateCall, hsig, hs, hagent, ht, toPropertyKey_str, lookupAccount,
      h, hk, errorJson]

/-- C5, witness: the agent identifier "constructor", which accountMap
inherits and does not own, is answered 400. -/
theorem retellFunction_unknown_agent_witness :
    retellFunction sampleRuntime sampleEnv (providerAnswers 200 "OK")
        constructorAgentRequest =
      ⟨[], ⟨400, .obj [("error", .str "Unknown agent ID or missing Textable credentials")]⟩⟩ :=
  retellFunction_unknown_agent _ _ _ _ "constructor" (by decide) rfl rfl (by decide)
    (Or.inl rfl)

/-! ## What passing the checks means -/

/-- The checks end in a call of fetch exactly when the signature is valid,
the function name is the recognised one, the agent identifier is truthy and
is the key of an account with a credential, and both arguments are truthy;
the request is then the one built from that account and those arguments. -/
theorem validateCall_eq_send_iff (rt : Runtime) (env : Env) (req : Request)
    (request : OutboundRequest) :
    validateCall rt env req = .ok (.send request) ↔
      verifyRetellSignature (RETELL_API_KEY env) req = true ∧
      requestName req = .str "send_textable_sms" ∧
      ∃ agentId key account toNumber messageBody,
        agentIdOf (requestCall req) = .ok agentId ∧ toBoolean agentId = true ∧
        toPropertyKey rt agentId = .ok key ∧
        (accountMap env).lookup key = some account ∧ account.apiKey ≠ "" ∧
        toNumberOf (requestArgs req) = .ok toNumber ∧
        messageBodyOf (requestArgs req) = .ok messageBody ∧
        toBoolean toNumber = true ∧ toBoolean messageBody = true ∧
        request = textableRequest rt env account toNumber messageBody := by
  unfold validateCall
  by_cases hsig : verifyRetellSignature (RETELL_API_KEY env) req = true
  swap
  · simp [hsig]
  by_cases hname : requestName req = .str "send_textable_sms"
  swap
  · simp [hsig, (strictEqualsString_eq_false_iff _ _).mpr hname, hname]
  have hs : strictEqualsString (.str "send_textable_sms") "send_textable_sms" = true := by
    simp [strictEqualsString]
  simp only [hsig, hname, hs, true_and]
  cases hagent : agentIdOf (requestCall req) with
  | error e => simp
  | ok agentId =>
    by_cases ht : toBoolean agentId = true
    swap
    · simp [ht]
    cases hkey : toPropertyKey rt agentId with
    | error e => simp [ht, hkey]
    | ok key =>
      cases hlook : (accountMap env).lookup key with
      | none =>
        by_cases hp : key ∈ objectPrototypeKeys
        · simp [ht, hkey, lookupAccount, hlook, hp]
        · simp [ht, hkey, lookupAccount, hlook, hp]
      | some account =>
        by_cases hk : account.apiKey = ""
        · simp [ht, hkey, lookupAccount, hlook, hk]
        cases hto : toNumberOf (requestArgs req) with
        | error e => simp [ht, hkey, lookupAccount, hlook, hk]
        | ok toNumber =>
          cases hmsg : messageBodyOf (requestArgs req) with
          | error e => simp [ht, hkey, lookupAccount, hlook, hk]
          | ok messageBody =>
            by_cases h1 : toBoolean toNumber = true
            swap
            · simp [ht, hkey, lookupAccount, hlook, hk, h1]
            by_cases h2 : toBoolean messageBody = true
            swap
            · simp [ht, hkey, lookupAccount, hlook, hk, h1, h2]
            simp [ht, hkey, lookupAccount, hlook, hk, h1, h2]
            exact eq_comm

theorem relayResponse_status (rt : Runtime) (result : FetchResult) :
    (relayResponse rt result).status = 200 ∨ (relayResponse rt result).status = 500 := by
  unfold relayResponse
  split
  · simp [serverError]
  · simp [serverError]
  · split <;> simp

theorem toBoolean_facts (v : JsVal) (h : toBoolean v = true) :
    v ≠ .undefined ∧ v ≠ .null ∧ v ≠ .str "" := by
  refine ⟨?_, ?_, ?_⟩ <;> intro hv <;> rw [hv] at h <;> simp [toBoolean] at h

theorem jsonStringify_of_truthy (rt : Runtime) (v : JsVal) (h : toBoolean v = true) :
    ∃ text, jsonStringify rt v = some text := by
  cases v <;> simp [toBoolean] at h <;> simp [jsonStringify]

theorem quoteJson_toNumber : quoteJson "toNumber" = "\"toNumber\"" := by decide

theorem quoteJson_fromNumber : quoteJson "fromNumber" = "\"fromNumber\"" := by decide

theorem quoteJson_messageBody : quoteJson "messageBody" = "\"messageBody\"" := by decide

/-- The text of the payload, given the texts of its two arguments. -/
theorem jsonStringify_textablePayload (rt : Runtime) (account : Account)
    (toNumber messageBody : JsVal) (toNumberText messageBodyText : String)
    (h1 : jsonStringify rt toNumber = some toNumberText)
    (h2 : jsonStringify rt messageBody = some messageBodyText) :
    jsonStringify rt (textablePayload account toNumber messageBody) =
      some ("\x7b\"toNumber\":" ++ toNumberText ++ ",\"fromNumber\":" ++
        quoteJson account.fromNumber ++ ",\"messageBody\":" ++ messageBodyText ++ "\x7d") := by
  simp only [textablePayload, jsonStringify, stringifyProps, h1, h2, quoteJson_toNumber,
    quoteJson_fromNumber, quoteJson_messageBody, String.intercalate, String.intercalate.go]
  congr 1
  apply String.ext
  simp [String.append_assoc]

/-! ## Alias resolution (claim C6) -/

theorem getProp_of_not_nullish (v : JsVal) (k : String) (h : isNullish v = false) :
    getProp v k = .ok (member v k) := by
  simp [getProp, h]

theorem agreesWith_last (c : JsVal) (hc : StringValued c) :
    AgreesWith c (firstNonEmpty [asString c]) := by
  rcases hc with rfl | ⟨z, rfl⟩
  · simp [AgreesWith, firstNonEmpty, asString, toBoolean]
  · by_cases hz : z = "" <;> simp [AgreesWith, firstNonEmpty, asString, toBoolean, hz]

theorem agreesWith_step (a others : JsVal) (picks : List (Option String)) (ha : StringValued a)
    (h : AgreesWith others (firstNonEmpty picks)) :
    AgreesWith (if toBoolean a then a else others) (firstNonEmpty (asString a :: picks)) := by
  rcases ha with rfl | ⟨x, rfl⟩
  · simpa [firstNonEmpty, asString, toBoolean] using h
  · by_cases hx : x = ""
    · simpa [firstNonEmpty, asString, toBoolean, hx] using h
    · simp [AgreesWith, firstNonEmpty, asString, toBoolean, hx]

theorem chain_agreesWith (a b c : JsVal) (ha : StringValued a) (hb : StringValued b)
    (hc : StringValued c) :
    AgreesWith (if toBoolean a then a else if toBoolean b then b else c)
      (firstNonEmpty [asString a, asString b, asString c]) :=
  agreesWith_step a _ _ ha (agreesWith_step b _ _ hb (agreesWith_last c hc))

theorem agentIdOf_of_not_nullish (call : JsVal) (h : isNullish call = false) :
    agentIdOf call = .ok
      (if toBoolean (member call "agent_id") then member call "agent_id"
       else if toBoolean (member call "agentId") then member call "agentId"
       else if isNullish (member call "agent") then .undefined
       else member (member call "agent") "id") := by
  unfold agentIdOf
  simp only [getProp_of_not_nullish call _ h, except_bind_ok]
  by_cases h1 : toBoolean (member call "agent_id") = true
  · simp [h1]
  · by_cases h2 : toBoolean (member call "agentId") = true
    · simp [h1, h2]
    · by_cases h3 : isNullish (member call "agent") = true
      · simp [h1, h2, h3]
      · simp [h1, h2, h3, getProp]

theorem toNumberOf_of_not_nullish (args : JsVal) (h : isNullish args = false) :
    toNumberOf args = .ok
      (if toBoolean (member args "toNumber") then member args "toNumber"
       else if toBoolean (member args "to") then member args "to"
       else member args "phone") := by
  unfold toNumberOf
  simp only [getProp_of_not_nullish args _ h, except_bind_ok]
  by_cases h1 : toBoolean (member args "toNumber") = true
  · simp [h1]
  · by_cases h2 : toBoolean (member args "to") = true
    · simp [h1, h2]
    · simp [h1, h2]

theorem messageBodyOf_of_not_nullish (args : JsVal) (h : isNullish args = false) :
    messageBodyOf args = .ok
      (if toBoolean (member args "messageBody") then member args "messageBody"
       else if toBoolean (member args "body") then member args "body"
       else member args "message") := by
  unfold messageBodyOf
  simp only [getProp_of_not_nullish args _ h, except_bind_ok]
  by_cases h1 : toBoolean (member args "messageBody") = true
  · simp [h1]
  · by_cases h2 : toBoolean (member args "body") = true
    · simp [h1, h2]
    · simp [h1, h2]

theorem toNumberOf_aliases (x y : String) :
    toNumberOf (.obj [("to", .str x), ("message", .str y)]) =
      toNumberOf (.obj [("toNumber", .str x), ("messageBody", .str y)]) := by
  by_cases hx : x = "" <;>
    simp [toNumberOf, getProp, isNullish, member, List.lookup, toBoolean, hx]

theorem messageBodyOf_short_alias (x y : String) :
    messageBodyOf (.obj [("to", .str x), ("message", .str y)]) = .ok (.str y) := by
  simp [messageBodyOf, getProp, isNullish, member, List.lookup, toBoolean]

theorem messageBodyOf_long_name (x y : String) :
    messageBodyOf (.obj [("toNumber", .str x), ("messageBody", .str y)]) =
      .ok (if y = "" then .undefined else .str y) := by
  by_cases hy : y = "" <;>
    simp [messageBodyOf, getProp, isNullish, member, List.lookup, toBoolean, hy]

/-- C6: alias resolution is first-non-empty-wins.  When the fields are
string-valued, the agent identifier the handler uses is the first non-empty
one of call.agent_id, call.agentId, call.agent.id, the destination the first
non-empty one of args.toNumber, args.to, args.phone and the message the
first non-empty one of args.messageBody, args.body, args.message (a falsy
value when there is none).  And two requests that agree on the signature
verdict, on name and on call, one with args {to: x, message: y}, the other
with args {toNumber: x, messageBody: y}, get the same calls of the provider
and the same response. -/
theorem alias_resolution_first_non_empty :
    (∀ call args : JsVal, isNullish call = false → isNullish args = false →
      (∀ v ∈ agentIdCandidates call ++ toNumberCandidates args ++ messageBodyCandidates args,
        StringValued v) →
      (∃ v, agentIdOf call = .ok v ∧
        AgreesWith v (firstNonEmpty ((agentIdCandidates call).map asString))) ∧
      (∃ v, toNumberOf args = .ok v ∧
        AgreesWith v (firstNonEmpty ((toNumberCandidates args).map asString))) ∧
      (∃ v, messageBodyOf args = .ok v ∧
        AgreesWith v (firstNonEmpty ((messageBodyCandidates args).map asString)))) ∧
    (∀ (rt : Runtime) (env : Env) (fetch : OutboundRequest → FetchResult)
        (req1 req2 : Request) (x y : String),
      verifyRetellSignature (RETELL_API_KEY env) req1 =
        verifyRetellSignature (RETELL_API_KEY env) req2 →
      requestName req1 = requestName req2 →
      requestCall req1 = requestCall req2 →
      requestArgs req1 = .obj [("to", .str x), ("message", .str y)] →
      requestArgs req2 = .obj [("toNumber", .str x), ("messageBody", .str y)] →
      retellFunction rt env fetch req1 = retellFunction rt env fetch req2) := by
  constructor
  · intro call args hcall hargs hall
    have hmem : ∀ v, v ∈ agentIdCandidates call ∨ v ∈ toNumberCandidates args ∨
        v ∈ messageBodyCandidates args → StringValued v := by
      intro v hv
      apply hall v
      simp only [List.mem_append]
      tauto
    refine ⟨⟨_, agentIdOf_of_not_nullish call hcall, ?_⟩,
      ⟨_, toNumberOf_of_not_nullish args hargs, ?_⟩,
      ⟨_, messageBodyOf_of_not_nullish args hargs, ?_⟩⟩
    · exact chain_agreesWith _ _ _
        (hmem _ (Or.inl (by simp [agentIdCandidates])))
        (hmem _ (Or.inl (by simp [agentIdCandidates])))
        (hmem _ (Or.inl (by simp [agentIdCandidates])))
    · exact chain_agreesWith _ _ _
        (hmem _ (Or.inr (Or.inl (by simp [toNumberCandidates]))))
        (hmem _ (Or.inr (Or.inl (by simp [toNumberCandidates]))))
        (hmem _ (Or.inr (Or.inl (by simp [toNumberCandidates]))))
    · exact chain_agreesWith _ _ _
        (hmem _ (Or.inr (Or.inr (by simp [messageBodyCandidates]))))
        (hmem _ (Or.inr (Or.inr (by simp [messageBodyCandidates]))))
        (hmem _ (Or.inr (Or.inr (by simp [messageBodyCandidates]))))
  · intro rt env fetch req1 req2 x y hsig hname hcall h1 h2
    have hv : validateCall rt env req1 = validateCall rt env req2 := by
      simp only [validateCall]
      rw [hsig, hname, hcall, h1, h2, toNumberOf_aliases x y, messageBodyOf_short_alias x y,
        messageBodyOf_long_name x y]
      by_cases hy : y = ""
      · simp [hy, toBoolean]
      · simp [hy]
    unfold retellFunction
    rw [hv]

/-- C6, witness: in a call context whose agent_id is the empty string the
identifier is taken from agentId, and the short-alias call and the long-name
call of the examples, each with its own valid signature, get the same
outcome. -/
theorem alias_resolution_first_non_empty_witness :
    agentIdOf (.obj [("agent_id", .str ""), ("agentId", .str "retell-agent-456")]) =
        .ok (.str "retell-agent-456") ∧
      retellFunction sampleRuntime sampleEnv (providerAnswers 200 "\x7b\"id\":\"abc\"\x7d")
          shortAliasRequest =
        retellFunction sampleRuntime sampleEnv (providerAnswers 200 "\x7b\"id\":\"abc\"\x7d")
          longNameRequest := by
  refine ⟨?_, alias_resolution_first_non_empty.2 _ _ _ _ _ "+1555" "hi" (by decide) rfl rfl
    rfl rfl⟩
  obtain ⟨⟨v, hv, hpick⟩, -, -⟩ := alias_resolution_first_non_empty.1
    (.obj [("agent_id", .str ""), ("agentId", .str "retell-agent-456")])
    (.obj [("phone", .str "+1555"), ("body", .str "hi")]) rfl rfl
    (by
      intro v hv
      simp [agentIdCandidates, toNumberCandidates, messageBodyCandidates, member, isNullish,
        List.lookup] at hv
      rcases hv with rfl | rfl | rfl | rfl | rfl | rfl | rfl <;> simp [StringValued])
  rw [hv]
  have hp : v = .str "retell-agent-456" := hpick
  rw [hp]

/-! ## The relay of the provider response (claims C7, C10) -/

/-- The short-alias call of the examples passes every check. -/
theorem shortAliasRequest_valid :
    validateCall sampleRuntime sampleEnv shortAliasRequest = .ok (.send sampleOutbound) := rfl

/-- C7: for a request that passes the signature check and the validation, and
a provider response of status s and body text t, let j be the JSON value of
t, or the object {raw: t} when t does not parse.  The handler has called the
provider once and answers 200 with {success: true, textable: j} when s is
between 200 and 299, and 500 with {error: "Textable API error", details: j}
otherwise.  In particular a provider answer 200 with the text {"id":"abc"},
whose JSON value is the object {id: "abc"}, gives 200 with
{success: true, textable: {id: "abc"}}. -/
theorem retellFunction_relays_provider_response (rt : Runtime) (env : Env)
    (fetch : OutboundRequest → FetchResult) (req : Request) (request : OutboundRequest)
    (status : Nat) (text : String)
    (hvalid : validateCall rt env req = .ok (.send request))
    (hfetch : fetch request = .responded status (.ok text)) :
    retellFunction rt env fetch req =
        ⟨[request],
          if 200 ≤ status ∧ status ≤ 299 then
            ⟨200, .obj [("success", .bool true),
              ("textable", (rt.jsonParse text).getD (.obj [("raw", .str text)]))]⟩
          else
            ⟨500, .obj [("error", .str "Textable API error"),
              ("details", (rt.jsonParse text).getD (.obj [("raw", .str text)]))]⟩⟩ ∧
      (status = 200 → text = "\x7b\"id\":\"abc\"\x7d" →
        rt.jsonParse text = some (.obj [("id", .str "abc")]) →
        retellFunction rt env fetch req =
          ⟨[request], ⟨200, .obj [("success", .bool true),
            ("textable", .obj [("id", .str "abc")])]⟩⟩) := by
  have h : retellFunction rt env fetch req =
      ⟨[request],
        if 200 ≤ status ∧ status ≤ 299 then
          ⟨200, .obj [("success", .bool true),
            ("textable", (rt.jsonParse text).getD (.obj [("raw", .str text)]))]⟩
        else
          ⟨500, .obj [("error", .str "Textable API error"),
            ("details", (rt.jsonParse text).getD (.obj [("raw", .str text)]))]⟩⟩ := by
    simp only [retellFunction, hvalid, hfetch, relayResponse]
  refine ⟨h, ?_⟩
  intro hs _ hparse
  rw [h, hs, hparse]
  simp

/-- C7, witness: the short-alias call of the examples, the provider
answering 200 with the text {"id":"abc"}. -/
theorem retellFunction_relays_provider_response_witness :
    retellFunction sampleRuntime sampleEnv (providerAnswers 200 "\x7b\"id\":\"abc\"\x7d")
        shortAliasRequest =
      ⟨[sampleOutbound], ⟨200, .obj [("success", .bool true),
        ("textable", .obj [("id", .str "abc")])]⟩⟩ :=
  (retellFunction_relays_provider_response sampleRuntime sampleEnv
    (providerAnswers 200 "\x7b\"id\":\"abc\"\x7d") shortAliasRequest sampleOutbound 200
    "\x7b\"id\":\"abc\"\x7d" shortAliasRequest_valid rfl).2 rfl rfl rfl

/-- C10, counterexample: the provider answers 200 with the text OK, which is
not JSON, and the handler answers 200, not 500. -/
theorem retellFunction_unparseable_success :
    sampleRuntime.jsonParse "OK" = none ∧
      retellFunction sampleRuntime sampleEnv (providerAnswers 200 "OK")
          shortAliasRequest =
        ⟨[sampleOutbound], ⟨200, .obj [("success", .bool true),
          ("textable", .obj [("raw", .str "OK")])]⟩⟩ :=
  ⟨rfl, rfl⟩

/-- C10, amended: for a request that passes the signature check and the
validation, the handler answers 500 with {error: "Server error", details:
the message of the error} when fetch rejects or the body of the response
cannot be read; when the body text t is not JSON it is wrapped as {raw: t}
and the handler answers 500 with {error: "Textable API error", details:
{raw: t}} if the status of the provider is outside 200 to 299, and 200 with
{success: true, textable: {raw: t}} if it is inside. -/
theorem retellFunction_upstream_failure (rt : Runtime) (env : Env)
    (fetch : OutboundRequest → FetchResult) (req : Request) (request : OutboundRequest)
    (hvalid : validateCall rt env req = .ok (.send request)) :
    (∀ message, fetch request = .rejected message →
      retellFunction rt env fetch req =
        ⟨[request], ⟨500, .obj [("error", .str "Server error"), ("details", .str message)]⟩⟩) ∧
    (∀ status message, fetch request = .responded status (.error message) →
      retellFunction rt env fetch req =
        ⟨[request], ⟨500, .obj [("error", .str "Server error"), ("details", .str message)]⟩⟩) ∧
    (∀ status text, fetch request = .responded status (.ok text) → rt.jsonParse text = none →
      retellFunction rt env fetch req =
        ⟨[request],
          if 200 ≤ status ∧ status ≤ 299 then
            ⟨200, .obj [("success", .bool true), ("textable", .obj [("raw", .str text)])]⟩
          else
            ⟨500, .obj [("error", .str "Textable API error"),
              ("details", .obj [("raw", .str text)])]⟩⟩) := by
  refine ⟨?_, ?_, ?_⟩
  · intro message hfetch
    simp only [retellFunction, hvalid, hfetch, relayResponse, serverError]
  · intro status message hfetch
    simp only [retellFunction, hvalid, hfetch, relayResponse, serverError]
  · intro status text hfetch hparse
    simp only [retellFunction, hvalid, hfetch, relayResponse, hparse, Option.getD_none]

/-- C10, witness: the short-alias call of the examples when fetch rejects
with the message "fetch failed", and when the provider answers 502 with a
text that is not JSON. -/
theorem retellFunction_upstream_failure_witness :
    retellFunction sampleRuntime sampleEnv (fun _ => .rejected "fetch failed")
        shortAliasRequest =
      ⟨[sampleOutbound], ⟨500, .obj [("error", .str "Server error"),
        ("details", .str "fetch failed")]⟩⟩ ∧
    retellFunction sampleRuntime sampleEnv (providerAnswers 502 "Bad Gateway")
        shortAliasRequest =
      ⟨[sampleOutbound], ⟨500, .obj [("error", .str "Textable API error"),
        ("details", .obj [("raw", .str "Bad Gateway")])]⟩⟩ :=
  ⟨(retellFunction_upstream_failure sampleRuntime sampleEnv (fun _ => .rejected "fetch failed")
      shortAliasRequest sampleOutbound shortAliasRequest_valid).1 "fetch failed" rfl,
    (retellFunction_upstream_failure sampleRuntime sampleEnv (providerAnswers 502 "Bad Gateway")
      shortAliasRequest sampleOutbound shortAliasRequest_valid).2.2 502 "Bad Gateway" rfl rfl⟩

/-! ## The outbound request (claim C8) -/

/-- C8, counterexample: the signed call whose args are {toNumber: [],
messageBody: {}} passes the test of line 89, both values being truthy, and
the one request the handler issues carries an empty array as toNumber and
an empty object as messageBody; and for the destination 1e999, which is
Infinity, the body of the request carries toNumber null. -/
theorem retellFunction_sends_empty_values :
    toNumberOf (requestArgs emptyValuesRequest) = .ok (.arr []) ∧
      messageBodyOf (requestArgs emptyValuesRequest) = .ok (.obj []) ∧
      (retellFunction sampleRuntime sampleEnv (providerAnswers 200 "OK")
          emptyValuesRequest).calls =
        [⟨"https://onesms-txb.textable.app/api/messages", "POST",
          [("Content-Type", "application/json"), ("Authorization", "Bearer key-1")],
          some ("\x7b\"toNumber\":[],\"fromNumber\":\"+16660001111\"," ++
            "\"messageBody\":\x7b\x7d\x7d")⟩] ∧
      (retellFunction sampleRuntime sampleEnv (providerAnswers 200 "OK")
          overflowRequest).calls =
        [⟨"https://onesms-txb.textable.app/api/messages", "POST",
          [("Content-Type", "application/json"), ("Authorization", "Bearer key-1")],
          some ("\x7b\"toNumber\":null,\"fromNumber\":\"+16660001111\"," ++
            "\"messageBody\":\"hi\"\x7d")⟩] :=
  ⟨rfl, rfl, rfl, rfl⟩

/-- C8, amended: the handler calls the provider at most once, and when it
does, the agent identifier converts to a key of the account table whose
account has a non-empty apiKey, the values toNumber and messageBody that the
alias chains found in args are truthy (so a string among them is not empty,
while an empty array, an empty object or a number is passed on as it is),
and the one request has the header Authorization "Bearer " followed by the
apiKey of that account and, as body, the JSON text of the object with
toNumber, the fromNumber of that account and messageBody, in that order; a
response 400 or 401 comes with no call. -/
theorem retellFunction_outbound_request (rt : Runtime) (env : Env)
    (fetch : OutboundRequest → FetchResult) (req : Request) :
    ((retellFunction rt env fetch req).calls = [] ∨
      ∃ agentId key account toNumber messageBody toNumberText messageBodyText,
        agentIdOf (requestCall req) = .ok agentId ∧
        toPropertyKey rt agentId = .ok key ∧
        (accountMap env).lookup key = some account ∧ account.apiKey ≠ "" ∧
        toNumberOf (requestArgs req) = .ok toNumber ∧
        messageBodyOf (requestArgs req) = .ok messageBody ∧
        (toBoolean toNumber = true ∧ ∀ s, toNumber = .str s → s ≠ "") ∧
        (toBoolean messageBody = true ∧ ∀ s, messageBody = .str s → s ≠ "") ∧
        jsonStringify rt toNumber = some toNumberText ∧
        jsonStringify rt messageBody = some messageBodyText ∧
        (retellFunction rt env fetch req).calls =
          [⟨textableUrl env, "POST",
            [("Content-Type", "application/json"), ("Authorization", "Bearer " ++ account.apiKey)],
            some ("\x7b\"toNumber\":" ++ toNumberText ++ ",\"fromNumber\":" ++
              quoteJson account.fromNumber ++ ",\"messageBody\":" ++ messageBodyText ++
              "\x7d")⟩]) ∧
    ((retellFunction rt env fetch req).response.status = 400 ∨
        (retellFunction rt env fetch req).response.status = 401 →
      (retellFunction rt env fetch req).calls = []) := by
  cases hv : validateCall rt env req with
  | error e => simp [retellFunction, hv]
  | ok checked =>
    cases checked with
    | reject response => simp [retellFunction, hv]
    | send request =>
      obtain ⟨-, -, agentId, key, account, toNumber, messageBody, h1, -, h3, h4, h5, h6, h7, h8,
        h9, h10⟩ := (validateCall_eq_send_iff rt env req request).mp hv
      obtain ⟨toNumberText, ht1⟩ := jsonStringify_of_truthy rt toNumber h8
      obtain ⟨messageBodyText, ht2⟩ := jsonStringify_of_truthy rt messageBody h9
      have hcalls : (retellFunction rt env fetch req).calls = [request] := by
        simp [retellFunction, hv]
      have hresp : (retellFunction rt env fetch req).response = relayResponse rt (fetch request) := by
        simp [retellFunction, hv]
      constructor
      · right
        refine ⟨agentId, key, account, toNumber, messageBody, toNumberText, messageBodyText, h1,
          h3, h4, h5, h6, h7, ⟨h8, ?_⟩, ⟨h9, ?_⟩, ht1, ht2, ?_⟩
        · intro s hs he
          exact (toBoolean_facts _ h8).2.2 (by rw [hs, he])
        · intro s hs he
          exact (toBoolean_facts _ h9).2.2 (by rw [hs, he])
        · rw [hcalls, h10, textableRequest,
            jsonStringify_textablePayload rt account toNumber messageBody _ _ ht1 ht2]
      · intro hs
        rw [hresp] at hs
        rcases relayResponse_status rt (fetch request) with h | h <;> rw [h] at hs <;> simp at hs

/-- C8, witness: for the short-alias call of the examples the one request is
sampleOutbound, built from the account of retell-agent-123, and the wrongly
signed call, answered 401, comes with no call. -/
theorem retellFunction_outbound_request_witness :
    (retellFunction sampleRuntime sampleEnv (providerAnswers 200 "OK") shortAliasRequest).calls =
        [sampleOutbound] ∧
      (accountMap sampleEnv).lookup "retell-agent-123" = some ⟨"key-1", "+16660001111"⟩ ∧
      ((retellFunction sampleRuntime sampleEnv (providerAnswers 200 "OK")
            wronglySignedRequest).response.status = 401 ∧
        (retellFunction sampleRuntime sampleEnv (providerAnswers 200 "OK")
            wronglySignedRequest).calls = []) :=
  ⟨rfl, rfl, rfl,
    (retellFunction_outbound_request sampleRuntime sampleEnv (providerAnswers 200 "OK")
      wronglySignedRequest).2 (Or.inr rfl)⟩

/-! ## Null call context and null args (claim C9) -/

/-- C9, the code at the failing inputs: a signed call whose call is null is
answered 500 by the catch clause, with the message of the TypeError that
reading call.agent_id throws, and so is a signed call of a known agent whose
args is null, the TypeError coming from args.toNumber; the claim asks for
400 "Missing agent id" and 400 "Missing toNumber or messageBody". -/
theorem retellFunction_null_call_or_args :
    sampleRuntime.jsonParse nullCallText =
        some (.obj [("name", .str "send_textable_sms"), ("call", .null)]) ∧
      retellFunction sampleRuntime sampleEnv (providerAnswers 200 "OK") nullCallRequest =
        ⟨[], ⟨500, .obj [("error", .str "Server error"),
          ("details", .str "Cannot read properties of null (reading \x27agent_id\x27)")]⟩⟩ ∧
      retellFunction sampleRuntime sampleEnv (providerAnswers 200 "OK") nullArgsRequest =
        ⟨[], ⟨500, .obj [("error", .str "Server error"),
          ("details", .str "Cannot read properties of null (reading \x27toNumber\x27)")]⟩⟩ :=
  ⟨rfl, rfl, rfl⟩

/-! ## The two other validation failures -/

theorem isNullish_orDefault (x : JsVal) (h : orDefault x (.obj []) ≠ .null) :
    isNullish (orDefault x (.obj [])) = false := by
  cases x <;> simp_all [orDefault, isNullish]

/-- A request that passes the signature check and names send_textable_sms,
whose call is not null and holds a falsy value, or none, at each of the three
places of the agent identifier, is answered 400 "Missing agent id" and
nothing is sent; this is the case when the body has no call. -/
theorem retellFunction_missing_agent_id (rt : Runtime) (env : Env)
    (fetch : OutboundRequest → FetchResult) (req : Request)
    (hsig : verifyRetellSignature (RETELL_API_KEY env) req = true)
    (hname : requestName req = .str "send_textable_sms")
    (hcall : requestCall req ≠ .null)
    (hall : ∀ v ∈ agentIdCandidates (requestCall req), toBoolean v = false) :
    retellFunction rt env fetch req =
      ⟨[], ⟨400, .obj [("error", .str "Missing agent id")]⟩⟩ := by
  have hs := (strictEqualsString_eq_true_iff _ _).mpr hname
  have hnn : isNullish (requestCall req) = false := isNullish_orDefault _ hcall
  have hagent := agentIdOf_of_not_nullish _ hnn
  simp only [agentIdCandidates, List.mem_cons, List.mem_singleton, List.not_mem_nil, or_false,
    forall_eq_or_imp, forall_eq] at hall
  obtain ⟨h1, h2, h3⟩ := hall
  rw [h1, h2] at hagent
  simp only [Bool.false_eq_true, if_false] at hagent
  simp [retellFunction, validateCall, hsig, hs, hagent, h3, errorJson]

/-- The signed call of the examples that has no call: its call is the
default, the empty object. -/
theorem retellFunction_missing_agent_id_witness :
    retellFunction sampleRuntime sampleEnv (providerAnswers 200 "OK") noCallRequest =
      ⟨[], ⟨400, .obj [("error", .str "Missing agent id")]⟩⟩ :=
  retellFunction_missing_agent_id _ _ _ _ (by decide) rfl (by intro h; cases h)
    (by decide)

/-- A request that passes the signature check and names send_textable_sms,
whose agent identifier is the key of an account with a credential, and whose
args is not null and holds a falsy value, or none, at each of the three
aliases of the destination or at each of the three aliases of the message,
is answered 400 "Missing toNumber or messageBody" and nothing is sent. -/
theorem retellFunction_missing_arguments (rt : Runtime) (env : Env)
    (fetch : OutboundRequest → FetchResult) (req : Request) (agentId : JsVal) (key : String)
    (account : Account)
    (hsig : verifyRetellSignature (RETELL_API_KEY env) req = true)
    (hname : requestName req = .str "send_textable_sms")
    (hagent : agentIdOf (requestCall req) = .ok agentId)
    (htruthy : toBoolean agentId = true)
    (hkey : toPropertyKey rt agentId = .ok key)
    (haccount : (accountMap env).lookup key = some account)
    (hapiKey : account.apiKey ≠ "")
    (hargs : requestArgs req ≠ .null)
    (hmissing : (∀ v ∈ toNumberCandidates (requestArgs req), toBoolean v = false) ∨
      (∀ v ∈ messageBodyCandidates (requestArgs req), toBoolean v = false)) :
    retellFunction rt env fetch req =
      ⟨[], ⟨400, .obj [("error", .str "Missing toNumber or messageBody")]⟩⟩ := by
  have hs := (strictEqualsString_eq_true_iff _ _).mpr hname
  have hnn : isNullish (requestArgs req) = false := isNullish_orDefault _ hargs
  have hto := toNumberOf_of_not_nullish _ hnn
  have hmsg := messageBodyOf_of_not_nullish _ hnn
  have hfalsy : ∀ a b c : JsVal, toBoolean a = false → toBoolean b = false →
      toBoolean c = false → toBoolean (if toBoolean a then a else if toBoolean b then b else c)
        = false := by
    intro a b c ha hb hc
    simp [ha, hb, hc]
  have hreject : (toBoolean (if toBoolean (member (requestArgs req) "toNumber") then
        member (requestArgs req) "toNumber"
      else if toBoolean (member (requestArgs req) "to") then member (requestArgs req) "to"
      else member (requestArgs req) "phone") = false) ∨
      (toBoolean (if toBoolean (member (requestArgs req) "messageBody") then
        member (requestArgs req) "messageBody"
      else if toBoolean (member (requestArgs req) "body") then member (requestArgs req) "body"
      else member (requestArgs req) "message") = false) := by
    rcases hmissing with h | h
    · left
      simp only [toNumberCandidates, List.mem_cons, List.mem_singleton, List.not_mem_nil,
        or_false, forall_eq_or_imp, forall_eq] at h
      exact hfalsy _ _ _ h.1 h.2.1 h.2.2
    · right
      simp only [messageBodyCandidates, List.mem_cons, List.mem_singleton, List.not_mem_nil,
        or_false, forall_eq_or_imp, forall_eq] at h
      exact hfalsy _ _ _ h.1 h.2.1 h.2.2
  rcases hreject with h | h
  · simp [retellFunction, validateCall, hsig, hs, hagent, htruthy, hkey, lookupAccount, haccount,
      hapiKey, hto, hmsg, h, errorJson]
  · simp [retellFunction, validateCall, hsig, hs, hagent, htruthy, hkey, lookupAccount, haccount,
      hapiKey, hto, hmsg, h, errorJson]

/-- The signed call of the examples that has a known agent and no args: its
args is the default, the empty object. -/
theorem retellFunction_missing_arguments_witness :
    retellFunction sampleRuntime sampleEnv (providerAnswers 200 "OK") noArgsRequest =
      ⟨[], ⟨400, .obj [("error", .str "Missing toNumber or messageBody")]⟩⟩ :=
  retellFunction_missing_arguments sampleRuntime sampleEnv _ noArgsRequest
    (.str "retell-agent-123") "retell-agent-123" ⟨"key-1", "+16660001111"⟩ (by decide) rfl rfl rfl
    rfl rfl (by decide) (by intro h; cases h) (Or.inl (by decide))

end Textable
